import Mathlib

/-!
Verification of the general-crawler job-scraper core.

This file shallowly embeds the Python modules that the specification's
claims are about:

* src/src/job/common/utils.py     — DateConverter, SalaryConverter
* src/src/job/mixins.py           — AsyncScraperMixin.get_data,
                                    ConcurrentScraperMixin.scrape_page,
                                    ConcurrentScraperMixin.main_scraper

Python strings are modelled as lists of characters (PyStr); Python
datetimes as integer seconds since 1970-01-01 (microseconds, which the
output format drops anyway, are not modelled); Python floats as exact
rationals (every value the salary code produces on the claims at issue is
exactly representable); fallible Python code as Except over an error type
enumerating the builtin exception classes the embedded code can raise.
Character-level case mapping models the ASCII fragment of str.lower,
which covers every marker string the converters match on.
-/

/-- A Python string, modelled as its list of characters. -/
abbrev PyStr := List Char

/-- Builtin Python exception classes that the embedded code can raise.
The repository defines no exception classes of its own. -/
inductive PyErr where
  | valueError
  | typeError
  | indexError
deriving DecidableEq

instance {ε α : Type} [DecidableEq ε] [DecidableEq α] : DecidableEq (Except ε α) :=
  fun a b =>
    match a, b with
    | .ok x, .ok y =>
      if h : x = y then .isTrue (by rw [h]) else .isFalse (by simp [h])
    | .error x, .error y =>
      if h : x = y then .isTrue (by rw [h]) else .isFalse (by simp [h])
    | .ok _, .error _ => .isFalse (by simp)
    | .error _, .ok _ => .isFalse (by simp)

/-- Whether the needle starts the haystack (helper for substring search). -/
def beginsWith : PyStr → PyStr → Bool
  | [], _ => true
  | _ :: _, [] => false
  | a :: as, b :: bs => a == b && beginsWith as bs

/-- Python substring membership: needle occurs contiguously in the haystack
(the `in` operator on str). -/
def pyIn (needle : PyStr) : PyStr → Bool
  | [] => needle.isEmpty
  | c :: rest => beginsWith needle (c :: rest) || pyIn needle rest

/-- Characters removed by Python str.strip with no arguments
(the ASCII whitespace set). -/
def pyIsSpace (c : Char) : Bool :=
  c == ' ' || c == '\t' || c == '\n' || c == '\r' || c == '\x0b' || c == '\x0c'

/-- Python str.strip with no arguments: drop leading and trailing whitespace. -/
def pyStrip (s : PyStr) : PyStr :=
  ((s.dropWhile pyIsSpace).reverse.dropWhile pyIsSpace).reverse

/-- Python str.lower, restricted to the ASCII simple case mapping. -/
def pyToLower (c : Char) : Char :=
  if 65 ≤ c.toNat && c.toNat ≤ 90 then Char.ofNat (c.toNat + 32) else c

/-- Python str.lower on a whole string. -/
def pyLower (s : PyStr) : PyStr := s.map pyToLower

/-- Helper for pySplit: accumulates the current word (reversed). -/
def splitWsAux : PyStr → PyStr → List PyStr
  | [], acc => if acc.isEmpty then [] else [acc.reverse]
  | c :: rest, acc =>
    if pyIsSpace c then
      if acc.isEmpty then splitWsAux rest [] else acc.reverse :: splitWsAux rest []
    else splitWsAux rest (c :: acc)

/-- Python str.split with no arguments: split on whitespace runs,
discarding empty pieces. -/
def pySplit (s : PyStr) : List PyStr := splitWsAux s []

/-- Numeric value of a string of decimal digit characters. -/
def digitsToNat (s : PyStr) : Nat :=
  s.foldl (fun n c => 10 * n + (c.toNat - 48)) 0

/-- Python int(s), restricted to the digit-only strings the converters
feed it (the code only ever parses the output of its digit filter):
the empty string raises ValueError. -/
def pyInt (s : PyStr) : Except PyErr Int :=
  if s.isEmpty || !s.all Char.isDigit then .error .valueError
  else .ok (digitsToNat s)

/-- Python float(s) on a digit-only string, producing an exact rational;
the empty string raises ValueError. -/
def pyFloatOfStr (s : PyStr) : Except PyErr Rat :=
  if s.isEmpty || !s.all Char.isDigit then .error .valueError
  else .ok ((digitsToNat s : Int) : Rat)

/-- Python division of a str by a number: unconditionally a TypeError
(str defines no division operator). -/
def pyDivStrInt (_s : PyStr) (_n : Int) : Except PyErr Rat :=
  .error .typeError

/-- Modelled from the spec: src/src/job/common/constants.py is not under
src/; the spec fixes the divisor as 100 ("digits parsed as integer,
divided by 100 ... via a fixed decimal-places divisor"). -/
def DECIMAL_PLACES : Int := 100

/-- Days since 1970-01-01 of a proleptic-Gregorian civil date
(standard era-based conversion, floor divisions throughout). -/
def daysFromCivil (y0 m d : Int) : Int :=
  let y := y0 - (if m ≤ 2 then 1 else 0)
  let era := y.fdiv 400
  let yoe := y - era * 400
  let doy := (153 * (m + (if 2 < m then -3 else 9)) + 2).fdiv 5 + d - 1
  let doe := yoe * 365 + yoe.fdiv 4 - yoe.fdiv 100 + doy
  era * 146097 + doe - 719468

/-- Civil date (year, month, day) of a count of days since 1970-01-01. -/
def civilFromDays (z0 : Int) : Int × Int × Int :=
  let z := z0 + 719468
  let era := z.fdiv 146097
  let doe := z - era * 146097
  let yoe := (doe - doe.fdiv 1460 + doe.fdiv 36524 - doe.fdiv 146096).fdiv 365
  let y := yoe + era * 400
  let doy := doe - (365 * yoe + yoe.fdiv 4 - yoe.fdiv 100)
  let mp := (5 * doy + 2).fdiv 153
  let d := doy - (153 * mp + 2).fdiv 5 + 1
  let m := mp + (if mp < 10 then 3 else -9)
  (y + (if m ≤ 2 then 1 else 0), m, d)

/-- Gregorian leap-year test. -/
def isLeap (y : Int) : Bool :=
  (y % 4 == 0 && y % 100 != 0) || y % 400 == 0

/-- Number of days in a month. -/
def daysInMonth (y m : Int) : Int :=
  if m == 2 then (if isLeap y then 29 else 28)
  else if m == 4 || m == 6 || m == 9 || m == 11 then 30
  else 31

/-- Python datetime(year, month, day) at midnight, as seconds since
1970-01-01; out-of-range fields raise ValueError, as the constructor does. -/
def pyDatetimeYMD (y m d : Int) : Except PyErr Int :=
  if 1 ≤ y && y ≤ 9999 && 1 ≤ m && m ≤ 12 && 1 ≤ d && d ≤ daysInMonth y m
  then .ok (86400 * daysFromCivil y m d)
  else .error .valueError

/-- The calendar year a timestamp falls in (datetime .year). -/
def yearOfTime (t : Int) : Int := (civilFromDays (t.fdiv 86400)).1

/-- Decimal digits of a natural number, most significant first
(fuel-based helper). -/
def natDigitsAux : Nat → Nat → PyStr
  | 0, _ => []
  | fuel + 1, n =>
    if n == 0 then []
    else natDigitsAux fuel (n / 10) ++ [Char.ofNat (48 + n % 10)]

/-- Decimal representation of a natural number. -/
def natDigits (n : Nat) : PyStr :=
  if n == 0 then ['0'] else natDigitsAux n n

/-- Left-pad with zeros to the given width. -/
def padZeros (w : Nat) (s : PyStr) : PyStr :=
  List.replicate (w - s.length) '0' ++ s

/-- Modelled from the spec: DEFAULT_FORMAT lives in the missing
src/src/job/common/constants.py; the sibling module src/src/utils.py and
the occ scraper both use "%Y-%m-%d %H:%M:%S", which this renders for a
timestamp in seconds since 1970-01-01. -/
def pyStrftimeDefault (t : Int) : PyStr :=
  let days := t.fdiv 86400
  let secs := (t.emod 86400).toNat
  let c := civilFromDays days
  padZeros 4 (natDigits c.1.toNat) ++ "-".toList ++
    padZeros 2 (natDigits c.2.1.toNat) ++ "-".toList ++
    padZeros 2 (natDigits c.2.2.toNat) ++ " ".toList ++
    padZeros 2 (natDigits (secs / 3600)) ++ ":".toList ++
    padZeros 2 (natDigits (secs % 3600 / 60)) ++ ":".toList ++
    padZeros 2 (natDigits (secs % 60))

/-- Modelled from the spec: the MONTHS table of the missing
src/src/job/common/constants.py, "a fixed locale month-name table"; the
sibling module src/src/utils.py holds the identical Spanish table. -/
def MONTHS : List (PyStr × Int) :=
  [("enero".toList, 1), ("febrero".toList, 2), ("marzo".toList, 3),
   ("abril".toList, 4), ("mayo".toList, 5), ("junio".toList, 6),
   ("julio".toList, 7), ("agosto".toList, 8), ("septiembre".toList, 9),
   ("octubre".toList, 10), ("noviembre".toList, 11), ("diciembre".toList, 12)]

/-- MONTHS.get(w): the month number for a month name, if present. -/
def monthsGet (w : PyStr) : Option Int :=
  (MONTHS.find? (fun p => p.1 == w)).map (fun p => p.2)

/-- Python `w in MONTHS`: dict key membership. -/
def monthsMem (w : PyStr) : Bool :=
  (monthsGet w).isSome

/-- DateConverter state: raw_date is lowercased by the constructor, which
also precomputes the digit string and captures datetime.now() — modelled
as the reference time current_date, in seconds since 1970-01-01. -/
structure DateConverter where
  raw_date : PyStr
  digit : PyStr
  current_date : Int
deriving DecidableEq

/-- DateConverter.__init__. -/
def DateConverter.make (now : Int) (raw_date : PyStr) : DateConverter :=
  let r := pyLower raw_date
  ⟨r, r.filter Char.isDigit, now⟩

/-- DateConverter.is_yesterday. -/
def DateConverter.is_yesterday (c : DateConverter) : Bool :=
  pyIn ("ayer".toList) c.raw_date

/-- DateConverter.is_hour. -/
def DateConverter.is_hour (c : DateConverter) : Bool :=
  pyIn ("horas".toList) c.raw_date || pyIn ("hora".toList) c.raw_date

/-- DateConverter.is_minutes. -/
def DateConverter.is_minutes (c : DateConverter) : Bool :=
  pyIn ("minutos".toList) c.raw_date || pyIn ("minuto".toList) c.raw_date

/-- DateConverter.is_days. -/
def DateConverter.is_days (c : DateConverter) : Bool :=
  pyIn ("días".toList) c.raw_date

/-- DateConverter._convert_from_minutes. -/
def DateConverter.convert_from_minutes (c : DateConverter) : Except PyErr Int := do
  let n ← pyInt c.digit
  return c.current_date - 60 * n

/-- DateConverter._convert_from_hour. -/
def DateConverter.convert_from_hour (c : DateConverter) : Except PyErr Int := do
  let n ← pyInt c.digit
  return c.current_date - 3600 * n

/-- DateConverter._convert_from_yesterday. -/
def DateConverter.convert_from_yesterday (c : DateConverter) : Except PyErr Int :=
  .ok (c.current_date - 86400)

/-- DateConverter._convert_from_days. -/
def DateConverter.convert_from_days (c : DateConverter) : Except PyErr Int := do
  let n ← pyInt c.digit
  return c.current_date - 86400 * n

/-- DateConverter._default: the first whitespace token that is a month
name; indexing the empty candidate list raises IndexError. The dead
`if not month_name` ValueError guard is kept. -/
def DateConverter.defaultBranch (c : DateConverter) : Except PyErr Int :=
  match (pySplit c.raw_date).filter monthsMem with
  | [] => .error .indexError
  | m :: _ =>
    if m.isEmpty then .error .valueError
    else do
      let day ← pyInt c.digit
      pyDatetimeYMD (yearOfTime c.current_date) ((monthsGet m).getD 0) day

/-- DateConverter.convert: branch priority as written in the source
(yesterday, then hours, then days, then minutes, then the month-name
fallback), then strftime with the default format. -/
def DateConverter.convert (c : DateConverter) : Except PyErr PyStr := do
  let standard_date ←
    if c.is_yesterday then c.convert_from_yesterday
    else if c.is_hour then c.convert_from_hour
    else if c.is_days then c.convert_from_days
    else if c.is_minutes then c.convert_from_minutes
    else c.defaultBranch
  return pyStrftimeDefault standard_date

/-- Noon of 2025-01-02 as a reference timestamp for concrete checks. -/
def refTime : Int := 86400 * daysFromCivil 2025 1 2 + 12 * 3600

/-- The salary dict built by SalaryConverter.convert. -/
structure Salary where
  base : Rat
  has_commission : Bool
deriving DecidableEq

/-- SalaryConverter state: raw_salary after `(raw_salary or "").strip().lower()`
performed by the constructor. -/
structure SalaryConverter where
  raw_salary : PyStr
deriving DecidableEq

/-- SalaryConverter.__init__: none (Python None) and the empty string both
collapse to the empty string, then strip and lowercase. -/
def SalaryConverter.make (raw_salary : Option PyStr) : SalaryConverter :=
  ⟨pyLower (pyStrip (raw_salary.getD []))⟩

/-- SalaryConverter._get_digit: the characters of raw_salary that are digits. -/
def SalaryConverter.get_digit (c : SalaryConverter) : PyStr :=
  c.raw_salary.filter Char.isDigit

/-- SalaryConverter.is_monthly. -/
def SalaryConverter.is_monthly (c : SalaryConverter) : Bool :=
  pyIn ("mensual".toList) c.raw_salary

/-- SalaryConverter.is_hourly. -/
def SalaryConverter.is_hourly (c : SalaryConverter) : Bool :=
  pyIn ("horas".toList) c.raw_salary

/-- SalaryConverter.has_commission. -/
def SalaryConverter.has_commission (c : SalaryConverter) : Bool :=
  pyIn ("comisión".toList) c.raw_salary

/-- SalaryConverter._convert_from_monthly: float(digits) / DECIMAL_PLACES. -/
def SalaryConverter.convert_from_monthly (c : SalaryConverter) : Except PyErr Rat := do
  let x ← pyFloatOfStr c.get_digit
  return x / (DECIMAL_PLACES : Rat)

/-- SalaryConverter._convert_from_hourly: the source divides the digit
STRING by DECIMAL_PLACES without the float() conversion the monthly
branch applies, so Python raises TypeError unconditionally. -/
def SalaryConverter.convert_from_hourly (c : SalaryConverter) : Except PyErr Rat :=
  pyDivStrInt c.get_digit DECIMAL_PLACES

/-- SalaryConverter._default. -/
def SalaryConverter.defaultBranch (_c : SalaryConverter) : Except PyErr Rat :=
  .ok 0

/-- SalaryConverter.convert. -/
def SalaryConverter.convert (c : SalaryConverter) : Except PyErr Salary := do
  let value ←
    if c.is_monthly then c.convert_from_monthly
    else if c.is_hourly then c.convert_from_hourly
    else c.defaultBranch
  return ⟨value, c.has_commission⟩

/-- One element of the list asyncio.gather(*tasks, return_exceptions=True)
hands to main_scraper's result loop: a page's offer list, Python None
(the page-not-available signal), or an Exception object. -/
inductive PageResult (α : Type) where
  | offers (l : List α)
  | notAvailable
  | exc
deriving DecidableEq

/-- Whether a page result is the None (page-not-available) signal. -/
def PageResult.isNA {α : Type} : PageResult α → Bool
  | .notAvailable => true
  | _ => false

/-- The offers a page result contributes (an exception contributes none). -/
def PageResult.pageOffers {α : Type} : PageResult α → List α
  | .offers l => l
  | _ => []

/-- The result-processing loop of ConcurrentScraperMixin.main_scraper:
walk the gathered results in task order, skip Exception entries, stop at
the first None, and extend the accumulator with each offer list. -/
def processResults {α : Type} : List (PageResult α) → List α
  | [] => []
  | .exc :: rest => processResults rest
  | .notAvailable :: _ => []
  | .offers l :: rest => l ++ processResults rest

/-- asyncio.gather with return_exceptions=True: however the tasks
interleave, each completion event deposits its result at the slot of the
task that produced it. The events list carries (task index, result) in
completion order. -/
def gatherAssemble {α : Type} (n : Nat) (events : List (Nat × PageResult α)) :
    List (PageResult α) :=
  events.foldl (fun acc e => acc.set e.1 e.2) (List.replicate n (PageResult.exc))

/-- The specification's aggregation: concatenate, in ascending page order,
the offer lists of all pages strictly before the first page-not-available
result. -/
def specAggregate {α : Type} (results : List (PageResult α)) : List α :=
  ((results.takeWhile (fun r => ! r.isNA)).map PageResult.pageOffers).flatten

/-- A scraped job offer. The flat overview fields are collapsed into
`title`; `details`, `offer_id` and `current_datetime` are the keys
_get_details adds when it succeeds. -/
structure Offer where
  title : PyStr
  details : Option PyStr
  offer_id : Option PyStr
  current_datetime : Option PyStr
deriving DecidableEq

/-- A fresh offer as the overview extraction produces it: no details,
no offer id, no timestamp. -/
def off0 : Offer := ⟨"python dev".toList, none, none, none⟩

/-- One iteration of the get_data loop: replace the offer with its
enriched version, keeping the original when _get_details raises. -/
def enrichStep (enrich : Nat → Offer → Except PyErr Offer) (e : Nat × Offer) : Offer :=
  match enrich e.1 e.2 with
  | .ok o => o
  | .error _ => e.2

/-- AsyncScraperMixin.get_data. The overview argument is the value of
_get_overview: none models both its False failure return and Python None;
a falsy (failed or empty) overview returns None, otherwise each offer is
enriched in order, one failure leaving that offer unchanged. -/
def get_data (enrich : Nat → Offer → Except PyErr Offer)
    (overview : Option (List Offer)) : Option (List Offer) :=
  match overview with
  | none => none
  | some offers =>
    if offers.isEmpty then none
    else some (offers.enum.map (enrichStep enrich))

/-- The body of ConcurrentScraperMixin.scrape_page inside its try block,
over the outcomes of its awaited sub-operations: opening the browsing
session, the is_next_page_available pre-check, and get_data. -/
def scrape_page_try (page_num : Nat) (openSession : Except PyErr Unit)
    (avail : Except PyErr Bool) (data : Except PyErr (Option (List Offer))) :
    Except PyErr (Option (List Offer)) :=
  match openSession with
  | .error e => .error e
  | .ok _ =>
    let afterCheck : Except PyErr (Option (List Offer)) :=
      match data with
      | .error e => .error e
      | .ok (some l) => if !l.isEmpty then .ok (some l) else .ok (some [])
      | .ok none => .ok (some [])
    if page_num > 1 then
      match avail with
      | .error e => .error e
      | .ok a => if !a then .ok none else afterCheck
    else afterCheck

/-- ConcurrentScraperMixin.scrape_page: the try body with its
except-Exception handler, which returns the empty list. -/
def scrape_page (page_num : Nat) (openSession : Except PyErr Unit)
    (avail : Except PyErr Bool) (data : Except PyErr (Option (List Offer))) :
    Option (List Offer) :=
  match scrape_page_try page_num openSession avail data with
  | .ok r => r
  | .error _ => some []

/-- How a settled scrape_page task appears among the gathered results:
scrape_page returns a value (never an uncaught exception), so only the
offers and notAvailable forms occur. -/
def toPageResult {α : Type} (o : Option (List α)) : PageResult α :=
  match o with
  | none => .notAvailable
  | some l => .offers l

/-- Lifecycle phase of one scrape_page task with respect to the
concurrency permit (async with semaphore) and the browsing session
(async with AsyncWebCrawler) nested inside it. -/
inductive Phase where
  | notStarted
  | hasPermit
  | sessionOpen
  | sessionClosed
  | done
deriving DecidableEq

/-- Whether a task in this phase holds a semaphore permit. -/
def holdsPermit : Phase → Bool
  | .hasPermit => true
  | .sessionOpen => true
  | .sessionClosed => true
  | _ => false

/-- Whether a task in this phase has its browsing session open. -/
def sessionIsOpen : Phase → Bool
  | .sessionOpen => true
  | _ => false

/-- Number of permits held across all tasks. -/
def permitCount (s : List Phase) : Nat := s.countP holdsPermit

/-- Number of simultaneously open browsing sessions. -/
def openCount (s : List Phase) : Nat := s.countP sessionIsOpen

/-- Interleaved execution of the scrape_page tasks, one step at a time.
acquire is guarded by the counting semaphore of size cap; the session
opens only under a held permit; every exit path (normal completion or an
exception before or after the session existed) closes the session before
the permit is released. -/
inductive Step (cap : Nat) : List Phase → List Phase → Prop
  | acquire (l r : List Phase)
      (hcap : permitCount (l ++ Phase.notStarted :: r) < cap) :
      Step cap (l ++ Phase.notStarted :: r) (l ++ Phase.hasPermit :: r)
  | openSession (l r : List Phase) :
      Step cap (l ++ Phase.hasPermit :: r) (l ++ Phase.sessionOpen :: r)
  | abortBeforeOpen (l r : List Phase) :
      Step cap (l ++ Phase.hasPermit :: r) (l ++ Phase.done :: r)
  | closeSession (l r : List Phase) :
      Step cap (l ++ Phase.sessionOpen :: r) (l ++ Phase.sessionClosed :: r)
  | release (l r : List Phase) :
      Step cap (l ++ Phase.sessionClosed :: r) (l ++ Phase.done :: r)

/-- States reachable by interleaving n freshly launched tasks under a
semaphore of size cap. -/
def Reachable (cap n : Nat) (s : List Phase) : Prop :=
  Relation.ReflTransGen (Step cap) (List.replicate n Phase.notStarted) s

theorem processResults_eq_specAggregate {α : Type} (results : List (PageResult α)) :
    processResults results = specAggregate results := by
  induction results with
  | nil => rfl
  | cons head tail ih =>
    cases head <;>
      simp [processResults, specAggregate, List.takeWhile_cons, PageResult.isNA,
        PageResult.pageOffers] <;>
      simp [specAggregate] at ih <;> exact ih

theorem foldl_set_enumFrom {β : Type} (t : List β) :
    ∀ (k : Nat) (a : β) (acc : List β),
      (t.enumFrom (k + 1)).foldl (fun acc e => acc.set e.1 e.2) (a :: acc)
        = a :: (t.enumFrom k).foldl (fun acc e => acc.set e.1 e.2) acc := by
  induction t with
  | nil => intro k a acc; rfl
  | cons b t ih =>
    intro k a acc
    show (t.enumFrom (k + 2)).foldl (fun acc e => acc.set e.1 e.2) ((a :: acc).set (k + 1) b)
        = a :: (t.enumFrom (k + 1)).foldl (fun acc e => acc.set e.1 e.2) (acc.set k b)
    exact ih (k + 1) a (acc.set k b)

theorem foldl_set_enum {β : Type} (l : List β) (d : β) :
    l.enum.foldl (fun acc e => acc.set e.1 e.2) (List.replicate l.length d) = l := by
  induction l with
  | nil => rfl
  | cons a t ih =>
    show (t.enumFrom 1).foldl (fun acc e => acc.set e.1 e.2)
        (a :: List.replicate t.length d) = a :: t
    rw [foldl_set_enumFrom t 0 a (List.replicate t.length d)]
    exact congrArg (a :: ·) ih

theorem gatherAssemble_perm {α : Type} (results : List (PageResult α))
    (events : List (Nat × PageResult α)) (hperm : events.Perm results.enum) :
    gatherAssemble results.length events = results := by
  have hnodup : (events.map Prod.fst).Nodup :=
    ((hperm.map Prod.fst).symm).nodup (List.nodup_enum_map_fst results)
  have hcomm : ∀ x ∈ events, ∀ y ∈ events, ∀ (z : List (PageResult α)),
      (z.set x.1 x.2).set y.1 y.2 = (z.set y.1 y.2).set x.1 x.2 := by
    intro x hx y hy z
    by_cases hxy : x.1 = y.1
    · have he : x = y := List.inj_on_of_nodup_map hnodup hx hy hxy
      subst he; rfl
    · exact List.set_comm _ _ _ hxy
  unfold gatherAssemble
  rw [hperm.foldl_eq' hcomm]
  exact foldl_set_enum results PageResult.exc

theorem permitCount_replicate (n : Nat) :
    permitCount (List.replicate n Phase.notStarted) = 0 := by
  induction n with
  | zero => rfl
  | succ n ih =>
    simp [List.replicate_succ, permitCount, List.countP_cons, holdsPermit] at ih ⊢

theorem permitCount_le_of_step {cap : Nat} {s t : List Phase}
    (h : Step cap s t) (hs : permitCount s ≤ cap) : permitCount t ≤ cap := by
  cases h with
  | acquire l r hcap =>
    simp [permitCount, List.countP_append, List.countP_cons, holdsPermit] at hcap ⊢
    omega
  | openSession l r =>
    simp [permitCount, List.countP_append, List.countP_cons, holdsPermit] at hs ⊢
    omega
  | abortBeforeOpen l r =>
    simp [permitCount, List.countP_append, List.countP_cons, holdsPermit] at hs ⊢
    omega
  | closeSession l r =>
    simp [permitCount, List.countP_append, List.countP_cons, holdsPermit] at hs ⊢
    omega
  | release l r =>
    simp [permitCount, List.countP_append, List.countP_cons, holdsPermit] at hs ⊢
    omega

theorem reachable_permitCount_le (cap n : Nat) (s : List Phase)
    (h : Reachable cap n s) : permitCount s ≤ cap := by
  unfold Reachable at h
  induction h with
  | refl => simp [permitCount_replicate]
  | tail hsteps hstep ih => exact permitCount_le_of_step hstep ih

theorem openCount_le_permitCount (s : List Phase) : openCount s ≤ permitCount s :=
  List.countP_mono_left (fun a _ha hopen => by
    cases a <;> simp_all [sessionIsOpen, holdsPermit])

theorem get_data_result (offers : List Offer)
    (enrich : Nat → Offer → Except PyErr Offer) (hne : offers ≠ []) :
    get_data enrich (some offers) = some (offers.enum.map (enrichStep enrich)) := by
  have h : offers.isEmpty = false := by simp [List.isEmpty_iff, hne]
  simp [get_data, h]

theorem enrich_map_getElem (offers : List Offer)
    (enrich : Nat → Offer → Except PyErr Offer) (i : Nat) (o : Offer)
    (hi : offers[i]? = some o) :
    (offers.enum.map (enrichStep enrich))[i]? = some (enrichStep enrich (i, o)) := by
  rw [List.getElem?_map, List.getElem?_enum, hi]
  rfl

/-- C9: scrape_page is total at its interface: it returns None exactly
when the page-availability pre-check on a page number greater than one
reports the page missing, any exception from a sub-operation is caught
and mapped to the empty list, and a settled scrape_page task can never
appear as the Exception form among the gathered results. -/
theorem scrape_page_cases (page_num : Nat) (openSession : Except PyErr Unit)
    (avail : Except PyErr Bool) (data : Except PyErr (Option (List Offer))) :
    (scrape_page page_num openSession avail data = none ↔
      openSession = .ok () ∧ page_num > 1 ∧ avail = .ok false) ∧
    (∀ e, openSession = .error e →
      scrape_page page_num openSession avail data = some []) ∧
    (∀ e, avail = .error e → page_num > 1 →
      scrape_page page_num openSession avail data = some []) ∧
    (∀ e, data = .error e → (page_num ≤ 1 ∨ avail = .ok true) →
      scrape_page page_num openSession avail data = some []) ∧
    toPageResult (scrape_page page_num openSession avail data) ≠ PageResult.exc := by
  rcases openSession with e0 | u
  · simp [scrape_page, scrape_page_try, toPageResult]
  · cases u
    by_cases hp : page_num > 1
    · rcases avail with e1 | a
      · simp [scrape_page, scrape_page_try, hp, toPageResult]
      · cases a
        · simp [scrape_page, scrape_page_try, hp, toPageResult]
        · rcases data with e2 | od
          · simp [scrape_page, scrape_page_try, hp, toPageResult]
          · rcases od with _ | l
            · simp [scrape_page, scrape_page_try, hp, toPageResult]
            · by_cases hl : l.isEmpty <;>
                simp [scrape_page, scrape_page_try, hp, hl, toPageResult]
    · rcases data with e2 | od
      · simp [scrape_page, scrape_page_try, hp, toPageResult]
      · rcases od with _ | l
        · simp [scrape_page, scrape_page_try, hp, toPageResult]
        · by_cases hl : l.isEmpty <;>
            simp [scrape_page, scrape_page_try, hp, hl, toPageResult]

theorem toNat_ofNat_small {n : Nat} (h : n < 55296) : (Char.ofNat n).toNat = n := by
  have hv : n.isValidChar := Or.inl h
  unfold Char.ofNat
  rw [dif_pos hv]
  rfl

theorem pyIsSpace_eq_false_of_ge {c : Char} (h : 33 ≤ c.toNat) :
    pyIsSpace c = false := by
  unfold pyIsSpace
  have hs : ∀ d : Char, d.toNat < 33 → (c == d) = false := by
    intro d hd
    cases hbe : c == d
    · rfl
    · have he : c = d := eq_of_beq hbe
      subst he; omega
  rw [hs ' ' (by decide), hs '\t' (by decide), hs '\n' (by decide),
    hs '\r' (by decide), hs '\x0b' (by decide), hs '\x0c' (by decide)]
  rfl

theorem pyToLower_toNat_of_upper {c : Char} (h : (65 ≤ c.toNat && c.toNat ≤ 90) = true) :
    (pyToLower c).toNat = c.toNat + 32 := by
  unfold pyToLower
  rw [if_pos h]
  simp only [Bool.and_eq_true, decide_eq_true_eq] at h
  exact toNat_ofNat_small (by omega)

theorem pyToLower_idem (c : Char) : pyToLower (pyToLower c) = pyToLower c := by
  cases h : (65 ≤ c.toNat && c.toNat ≤ 90)
  · have hc : pyToLower c = c := by unfold pyToLower; rw [h]; rfl
    rw [hc, hc]
  · have ht : (pyToLower c).toNat = c.toNat + 32 := pyToLower_toNat_of_upper h
    simp only [Bool.and_eq_true, decide_eq_true_eq] at h
    have hcond : (65 ≤ (pyToLower c).toNat && (pyToLower c).toNat ≤ 90) = false := by
      simp only [Bool.and_eq_false_iff, decide_eq_false_iff_not]
      omega
    show (if (65 ≤ (pyToLower c).toNat && (pyToLower c).toNat ≤ 90) = true
        then Char.ofNat ((pyToLower c).toNat + 32) else pyToLower c) = pyToLower c
    rw [hcond]
    simp

theorem pyIsSpace_pyToLower (c : Char) : pyIsSpace (pyToLower c) = pyIsSpace c := by
  cases h : (65 ≤ c.toNat && c.toNat ≤ 90)
  · have hc : pyToLower c = c := by unfold pyToLower; rw [h]; rfl
    rw [hc]
  · have ht : (pyToLower c).toNat = c.toNat + 32 := pyToLower_toNat_of_upper h
    simp only [Bool.and_eq_true, decide_eq_true_eq] at h
    rw [pyIsSpace_eq_false_of_ge (by omega), pyIsSpace_eq_false_of_ge (by omega)]

theorem pyLower_idem (s : PyStr) : pyLower (pyLower s) = pyLower s := by
  unfold pyLower
  rw [List.map_map]
  congr 1
  funext c
  exact pyToLower_idem c

theorem dropWhile_map_pyToLower (s : PyStr) :
    (s.map pyToLower).dropWhile pyIsSpace = (s.dropWhile pyIsSpace).map pyToLower := by
  induction s with
  | nil => rfl
  | cons c t ih =>
    rw [List.map_cons, List.dropWhile_cons, List.dropWhile_cons, pyIsSpace_pyToLower]
    cases h : pyIsSpace c
    · simp only [Bool.false_eq_true, if_false, List.map_cons]
    · simp only [if_true, ih]

theorem dropWhile_dropWhile {α : Type} (p : α → Bool) (l : List α) :
    (l.dropWhile p).dropWhile p = l.dropWhile p := by
  induction l with
  | nil => rfl
  | cons c t ih =>
    rw [List.dropWhile_cons]
    cases h : p c
    · simp only [Bool.false_eq_true, if_false, List.dropWhile_cons, h]
    · simp only [if_true, ih]

theorem head?_dropWhile {α : Type} (p : α → Bool) (l : List α) :
    ∀ a, (l.dropWhile p).head? = some a → p a = false := by
  induction l with
  | nil => intro a h; simp at h
  | cons c t ih =>
    intro a h
    rw [List.dropWhile_cons] at h
    cases hc : p c
    · rw [hc] at h
      simp only [Bool.false_eq_true, if_false, List.head?_cons, Option.some.injEq] at h
      subst h; exact hc
    · rw [hc] at h
      simp only [if_true] at h
      exact ih a h

theorem dropWhile_of_head?_false {α : Type} (p : α → Bool) (l : List α) (a : α)
    (h : l.head? = some a) (hp : p a = false) : l.dropWhile p = l := by
  cases l with
  | nil => rfl
  | cons c t =>
    simp only [List.head?_cons, Option.some.injEq] at h
    subst h
    rw [List.dropWhile_cons, hp]
    simp

theorem getLast?_dropWhile {α : Type} (p : α → Bool) (l : List α)
    (h : l.dropWhile p ≠ []) : (l.dropWhile p).getLast? = l.getLast? := by
  induction l with
  | nil => simp at h
  | cons c t ih =>
    by_cases hc : p c = true
    · have hd : (c :: t).dropWhile p = t.dropWhile p := by
        rw [List.dropWhile_cons, if_pos hc]
      rw [hd] at h ⊢
      have ht : t ≠ [] := by
        intro he; subst he; simp at h
      rw [ih h]
      cases t with
      | nil => exact absurd rfl ht
      | cons b u => rw [List.getLast?_cons_cons]
    · have hd : (c :: t).dropWhile p = c :: t := by
        rw [List.dropWhile_cons, if_neg hc]
      rw [hd]

theorem dropWhile_head_ok {α : Type} (p : α → Bool) (l : List α)
    (h : ∀ a, l.head? = some a → p a = false) : l.dropWhile p = l := by
  cases l with
  | nil => rfl
  | cons c t =>
    rw [List.dropWhile_cons, h c rfl]
    simp

theorem pyStrip_idem (s : PyStr) : pyStrip (pyStrip s) = pyStrip s := by
  have h1 : (pyStrip s).dropWhile pyIsSpace = pyStrip s := by
    apply dropWhile_head_ok
    intro a ha
    unfold pyStrip at ha
    rw [List.head?_reverse] at ha
    by_cases hz : (s.dropWhile pyIsSpace).reverse.dropWhile pyIsSpace = []
    · rw [hz] at ha; cases ha
    · rw [getLast?_dropWhile pyIsSpace _ hz, List.getLast?_reverse] at ha
      exact head?_dropWhile pyIsSpace s a ha
  calc pyStrip (pyStrip s)
      = (((pyStrip s).dropWhile pyIsSpace).reverse.dropWhile pyIsSpace).reverse := rfl
    _ = ((pyStrip s).reverse.dropWhile pyIsSpace).reverse := by rw [h1]
    _ = (((s.dropWhile pyIsSpace).reverse.dropWhile pyIsSpace).dropWhile pyIsSpace).reverse := by
          rw [show (pyStrip s).reverse
              = (s.dropWhile pyIsSpace).reverse.dropWhile pyIsSpace from by
            unfold pyStrip; rw [List.reverse_reverse]]
    _ = ((s.dropWhile pyIsSpace).reverse.dropWhile pyIsSpace).reverse := by
          rw [dropWhile_dropWhile]
    _ = pyStrip s := rfl

theorem pyStrip_pyLower (s : PyStr) : pyStrip (pyLower s) = pyLower (pyStrip s) := by
  unfold pyStrip pyLower
  rw [dropWhile_map_pyToLower, ← List.map_reverse, dropWhile_map_pyToLower,
    ← List.map_reverse]

theorem salary_canon_idem (s : PyStr) :
    pyLower (pyStrip (pyLower (pyStrip s))) = pyLower (pyStrip s) := by
  rw [pyStrip_pyLower, pyLower_idem, pyStrip_idem]

theorem filter_isDigit_all (l : PyStr) :
    (l.filter Char.isDigit).all Char.isDigit = true := by
  rw [List.all_eq_true]
  intro a ha
  exact (List.mem_filter.mp ha).2

theorem pyInt_digit (l : PyStr) (h : l.filter Char.isDigit ≠ []) :
    pyInt (l.filter Char.isDigit) = .ok (digitsToNat (l.filter Char.isDigit)) := by
  have h1 : (l.filter Char.isDigit).isEmpty = false := by simp [List.isEmpty_iff, h]
  unfold pyInt
  rw [h1, filter_isDigit_all]
  rfl

theorem make_digit (now : Int) (s : PyStr) :
    (DateConverter.make now s).digit = (pyLower s).filter Char.isDigit := rfl

theorem date_hour_branch (now : Int) (s : PyStr)
    (hy : (DateConverter.make now s).is_yesterday = false)
    (hh : (DateConverter.make now s).is_hour = true)
    (hd : (DateConverter.make now s).digit ≠ []) :
    (DateConverter.make now s).convert
      = .ok (pyStrftimeDefault
          (now - 3600 * (digitsToNat ((pyLower s).filter Char.isDigit) : Int))) := by
  have hdig : pyInt (DateConverter.make now s).digit
      = .ok (digitsToNat ((pyLower s).filter Char.isDigit)) := by
    rw [make_digit]
    exact pyInt_digit (pyLower s) (by rw [← make_digit now s]; exact hd)
  unfold DateConverter.convert
  rw [hy, hh]
  simp only [Bool.false_eq_true, if_false, if_true]
  unfold DateConverter.convert_from_hour
  rw [hdig]
  rfl

theorem date_default_indexError (now : Int) (s : PyStr)
    (hy : (DateConverter.make now s).is_yesterday = false)
    (hh : (DateConverter.make now s).is_hour = false)
    (hd : (DateConverter.make now s).is_days = false)
    (hm : (DateConverter.make now s).is_minutes = false)
    (hmonth : (pySplit (DateConverter.make now s).raw_date).filter monthsMem = []) :
    (DateConverter.make now s).convert = .error .indexError := by
  unfold DateConverter.convert
  rw [hy, hh, hd, hm]
  simp only [Bool.false_eq_true, if_false]
  unfold DateConverter.defaultBranch
  rw [hmonth]
  rfl

theorem DateConverter_make_canon (now : Int) (s : PyStr) :
    DateConverter.make now s = DateConverter.make now (pyLower s) := by
  simp only [DateConverter.make]
  rw [pyLower_idem]

theorem SalaryConverter_make_canon (s : PyStr) :
    SalaryConverter.make (some s) = SalaryConverter.make (some (pyLower (pyStrip s))) := by
  simp only [SalaryConverter.make, Option.getD_some]
  rw [salary_canon_idem]

/-- C1: the orchestrator's aggregated output is the concatenation, in
ascending page order, of the offer lists of all pages strictly before the
first page-not-available result; an exception entry contributes nothing
without truncating; and the output is the same for every completion order
of the tasks, because gather deposits each result at its task's slot. -/
theorem main_scraper_aggregation {α : Type} (results : List (PageResult α))
    (events : List (Nat × PageResult α)) (hperm : events.Perm results.enum) :
    processResults (gatherAssemble results.length events) = specAggregate results := by
  rw [gatherAssemble_perm results events hperm]
  exact processResults_eq_specAggregate results

/-- Witness for C1: four pages whose tasks complete in the order
3, 1, 4, 2; page 3 is not available, so only pages 1 and 2 survive. -/
theorem main_scraper_aggregation_witness :
    processResults (gatherAssemble
      ([PageResult.offers [1, 2], PageResult.offers [3], PageResult.notAvailable,
        PageResult.offers [4]] : List (PageResult Nat)).length
      [(2, PageResult.notAvailable), (0, PageResult.offers [1, 2]),
       (3, PageResult.offers [4]), (1, PageResult.offers [3])]) = [1, 2, 3] :=
  (main_scraper_aggregation
    [PageResult.offers [1, 2], PageResult.offers [3], PageResult.notAvailable,
      PageResult.offers [4]]
    [(2, PageResult.notAvailable), (0, PageResult.offers [1, 2]),
      (3, PageResult.offers [4]), (1, PageResult.offers [3])]
    (by decide)).trans (by decide)

/-- C2: in every state reachable by interleaving the page tasks, at most
max_concurrency browsing sessions are simultaneously open: a session only
exists under a held permit and the semaphore never hands out more than
cap permits. -/
theorem semaphore_bounds_sessions (cap n : Nat) (s : List Phase)
    (h : Reachable cap n s) : openCount s ≤ cap :=
  le_trans (openCount_le_permitCount s) (reachable_permitCount_le cap n s h)

/-- Witness for C2: one task under a semaphore of size one acquires the
permit and opens its session; the open-session count is within the cap. -/
theorem semaphore_bounds_sessions_witness : openCount [Phase.sessionOpen] ≤ 1 :=
  semaphore_bounds_sessions 1 1 [Phase.sessionOpen]
    (Relation.ReflTransGen.tail
      (Relation.ReflTransGen.tail Relation.ReflTransGen.refl
        (show Step 1 (List.replicate 1 Phase.notStarted) [Phase.hasPermit] from
          @Step.acquire 1 [] [] (by decide)))
      (show Step 1 [Phase.hasPermit] [Phase.sessionOpen] from
        @Step.openSession 1 [] []))

/-- C3: for a page whose overview yields offers, one offer's detail
failure leaves that offer in the returned list unchanged (hence without a
details field, offers coming off the overview having none) and never
aborts the rest of the page: the page task still returns a full-length
list. -/
theorem get_data_partial_failure (offers : List Offer)
    (enrich : Nat → Offer → Except PyErr Offer)
    (hne : offers ≠ []) (hfresh : ∀ o ∈ offers, o.details = none) :
    get_data enrich (some offers) = some (offers.enum.map (enrichStep enrich)) ∧
    (offers.enum.map (enrichStep enrich)).length = offers.length ∧
    ∀ i o e, offers[i]? = some o → enrich i o = .error e →
      (offers.enum.map (enrichStep enrich))[i]? = some o ∧ o.details = none := by
  refine ⟨get_data_result offers enrich hne, by simp, ?_⟩
  intro i o e hi he
  have hmem : o ∈ offers := by
    obtain ⟨hlt, rfl⟩ := List.getElem?_eq_some.mp hi
    exact List.getElem_mem hlt
  refine ⟨?_, hfresh o hmem⟩
  rw [enrich_map_getElem offers enrich i o hi]
  unfold enrichStep
  rw [he]

/-- Witness for C3: one offer whose enrichment always fails is returned
unchanged. -/
theorem get_data_partial_failure_witness :
    get_data (fun _ _ => .error .typeError) (some [off0]) = some [off0] :=
  ((get_data_partial_failure [off0] (fun _ _ => .error .typeError)
    (by decide) (by decide)).1).trans (by decide)

/-- Witness for C9: page 2 with a successful session, an availability
check answering false and data that would have been offers still yields
the page-not-available signal. -/
theorem scrape_page_cases_witness :
    scrape_page 2 (.ok ()) (.ok false) (.ok (some [off0])) = none :=
  (scrape_page_cases 2 (.ok ()) (.ok false) (.ok (some [off0]))).1.mpr
    ⟨rfl, by decide, rfl⟩

/-- C4 counterexample: on a string carrying both an hours marker and a
minutes marker, convert takes the hours branch (reference time minus
230 hours, the concatenated digits being 230), not the minutes branch the
claim predicts. -/
theorem date_priority_counterexample :
    (DateConverter.make refTime ("2 horas 30 minutos".toList)).convert
        = .ok (pyStrftimeDefault (refTime - 3600 * 230)) ∧
    (DateConverter.make refTime ("2 horas 30 minutos".toList)).convert
        ≠ .ok (pyStrftimeDefault (refTime - 60 * 230)) := by
  constructor
  · decide
  · decide

/-- C4 amended: the branch priority the source implements is yesterday,
then hours, then days, then minutes, then the month-name fallback; in
particular a string containing both a minutes marker and an hours marker
(and no yesterday marker) is resolved by the hours branch. -/
theorem date_priority_amended (now : Int) (s : PyStr)
    (hy : (DateConverter.make now s).is_yesterday = false)
    (hh : (DateConverter.make now s).is_hour = true)
    (_hm : (DateConverter.make now s).is_minutes = true)
    (hd : (DateConverter.make now s).digit ≠ []) :
    (DateConverter.make now s).convert
      = .ok (pyStrftimeDefault
          (now - 3600 * (digitsToNat ((pyLower s).filter Char.isDigit) : Int))) :=
  date_hour_branch now s hy hh hd

/-- Witness for C4 amended: a concrete string with both markers, resolved
by the hours branch with the concatenated digits 302. -/
theorem date_priority_amended_witness :
    (DateConverter.make refTime ("30 minutos y 2 horas".toList)).convert
      = .ok (pyStrftimeDefault (refTime - 3600 * 302)) :=
  (date_priority_amended refTime ("30 minutos y 2 horas".toList)
    (by decide) (by decide) (by decide) (by decide)).trans (by decide)

/-- C5 counterexample: on input with no pattern and no month name the
converter fails with the builtin IndexError (from indexing the empty list
of month-name candidates), not with any dedicated error type; the
repository defines no UnparseableDateError. -/
theorem date_unparseable_counterexample :
    (DateConverter.make refTime ("hola".toList)).convert = .error .indexError := by
  decide

/-- C5 amended: whenever no relative-date marker matches and no
whitespace token of the canonicalized input is a recognized month name,
convert raises the builtin IndexError, and only that. -/
theorem date_unparseable_amended (now : Int) (s : PyStr)
    (hy : (DateConverter.make now s).is_yesterday = false)
    (hh : (DateConverter.make now s).is_hour = false)
    (hd : (DateConverter.make now s).is_days = false)
    (hm : (DateConverter.make now s).is_minutes = false)
    (hmonth : (pySplit (DateConverter.make now s).raw_date).filter monthsMem = []) :
    (DateConverter.make now s).convert = .error .indexError :=
  date_default_indexError now s hy hh hd hm hmonth

/-- Witness for C5 amended: a concrete unparseable string. -/
theorem date_unparseable_amended_witness :
    (DateConverter.make refTime ("sin fecha".toList)).convert = .error .indexError :=
  date_unparseable_amended refTime ("sin fecha".toList)
    (by decide) (by decide) (by decide) (by decide) (by decide)

/-- C6: on a salary string with the hourly marker the code divides the
digit STRING by the divisor — the float() conversion present in the
monthly branch is missing — so Python raises TypeError instead of
returning digits divided by 100. -/
theorem salary_hourly_type_error :
    (SalaryConverter.make (some ("$20 por 8 horas".toList))).convert
      = .error .typeError := by
  decide

/-- C7: normalizing the salary string dollars-15,000-mensual yields base
150 (digits 15000 divided by the fixed divisor 100) and no commission
flag. -/
theorem salary_monthly_example :
    (SalaryConverter.make (some ("$15,000 mensual".toList))).convert
      = .ok ⟨150, false⟩ := by
  have h : (SalaryConverter.make (some ("$15,000 mensual".toList))).convert
      = .ok ⟨((15000 : Int) : Rat) / ((DECIMAL_PLACES : Int) : Rat), false⟩ := rfl
  rw [h]
  norm_num [DECIMAL_PLACES]

/-- C8: on a salary string carrying both the hourly marker and the
commission marker the converter crashes with TypeError before any result
dict is built, so there is no result whose has_commission field could
reflect the present commission marker. -/
theorem salary_commission_hourly_crash :
    (SalaryConverter.make (some ("pago por horas más comisión".toList))).has_commission
        = true ∧
    (SalaryConverter.make (some ("pago por horas más comisión".toList))).convert
        = .error .typeError := by
  constructor
  · decide
  · decide

/-- C10: both normalizers canonicalize on construction, so the date
converter gives the same result on a string and on its lowercased form,
and the salary converter gives the same result on a string and on its
stripped-then-lowercased form. -/
theorem normalizers_canonicalize (now : Int) (s : PyStr) :
    (DateConverter.make now s).convert = (DateConverter.make now (pyLower s)).convert ∧
    (SalaryConverter.make (some s)).convert
      = (SalaryConverter.make (some (pyLower (pyStrip s)))).convert := by
  constructor
  · rw [← DateConverter_make_canon]
  · rw [← SalaryConverter_make_canon]
